import Mathlib

/-!
Verification of the wellness-server slot-reservation engine (`src/server.js`).

The embedding mirrors the source: a `DB` models the sqlite `bookings` table
(rows plus the AUTOINCREMENT counter), `TIME_SLOTS` / `CAPACITY_PER_SLOT` are
the slot catalog, and each HTTP handler becomes a pure function over `DB`.
The `POST /api/book` handler is embedded twice: once sequentially
(`reserveSlot`, which also records the trace of store and notification
events), and once as a two-step interleaved process (`stepReq` / `runRace`)
whose atomic steps are the two sqlite statements the handler issues — the
`SELECT COUNT(*)` and the `INSERT` — so that races between concurrent
requests can be exhibited.
-/

/-- One row of the `bookings` table (CREATE TABLE in server.js). -/
structure Booking where
  id : Nat
  lineUserId : String
  name : String
  date : String
  time : String
  note : String
  status : String
  createdAt : String
deriving Repr, DecidableEq

/-- The sqlite database: the rows of `bookings` plus the AUTOINCREMENT
counter (sqlite assigns `this.lastID = nextId` and bumps it on insert). -/
structure DB where
  rows : List Booking
  nextId : Nat
deriving Repr, DecidableEq

/-- The freshly created database: no rows, first id is 1. -/
def DB.empty : DB := ⟨[], 1⟩

/-- `TIME_SLOTS` from server.js: the 13 catalog time labels. -/
def TIME_SLOTS : List String :=
  ["09:00", "09:30",
   "10:00", "10:30",
   "11:00", "11:30",
   "13:00", "13:30",
   "14:00", "14:30",
   "15:00", "15:30",
   "16:00"]

/-- `CAPACITY_PER_SLOT` from server.js. -/
def CAPACITY_PER_SLOT : Nat := 1

/-- `SELECT COUNT(*) FROM bookings WHERE date = ? AND time = ?`. -/
def countSlot (db : DB) (d t : String) : Nat :=
  (db.rows.filter (fun b => b.date == d && b.time == t)).length

/-- Count of rows for (date, time) whose status is CONFIRMED. -/
def countConfirmed (db : DB) (d t : String) : Nat :=
  (db.rows.filter
    (fun b => b.date == d && b.time == t && b.status == "CONFIRMED")).length

/-- `GROUP BY time` over a set of rows: one (time, COUNT(*)) pair per
distinct time value occurring in the rows. -/
def groupByTime (rows : List Booking) : List (String × Nat) :=
  ((rows.map (fun b => b.time)).dedup).map
    (fun t => (t, (rows.filter (fun b => b.time == t)).length))

/-- `bookedMap[t] || 0` in the /api/slots handler. -/
def lookupCount (m : List (String × Nat)) (t : String) : Nat :=
  match m.find? (fun p => p.1 == t) with
  | some p => p.2
  | none => 0

/-- One element of the `slots` array returned by GET /api/slots. -/
structure SlotView where
  time : String
  capacity : Nat
  booked : Nat
  available : Int
  isFull : Bool
deriving Repr, DecidableEq

/-- The GET /api/slots handler body (after the `date` presence check):
group the day's rows by time, then map every catalog slot to its view. -/
def getSlots (db : DB) (date : String) : List SlotView :=
  let bookedMap := groupByTime (db.rows.filter (fun b => b.date == date))
  TIME_SLOTS.map (fun t =>
    let used := lookupCount bookedMap t
    let available : Int := (CAPACITY_PER_SLOT : Int) - (used : Int)
    { time := t
      capacity := CAPACITY_PER_SLOT
      booked := used
      available := available
      isFull := decide (available ≤ 0) })

/-- JS falsiness of a request field: absent (`undefined`) or empty string. -/
def isBlank : Option String → Bool
  | none => true
  | some s => s == ""

/-- Outcome of the POST /api/book handler. -/
inductive BookResult where
  | validationError
  | slotFull
  | created (b : Booking)
deriving Repr, DecidableEq

/-- Observable events of one POST /api/book execution, in order:
store reads, store inserts, LINE pushMessage attempts (with delivery
outcome), and the HTTP response code. -/
inductive Ev where
  | read (d t : String)
  | insert (b : Booking)
  | push (userId : String) (b : Booking) (delivered : Bool)
  | respond (code : Nat)
deriving Repr, DecidableEq

/-- Keep only the store interactions of a trace. -/
def storeEvents (tr : List Ev) : List Ev :=
  tr.filter (fun e =>
    match e with
    | .read _ _ => true
    | .insert _ => true
    | _ => false)

/-- Result, final database and event trace of one POST /api/book call. -/
structure BookOutcome where
  result : BookResult
  db : DB
  trace : List Ev
deriving Repr, DecidableEq

/-- The row the INSERT statement writes: the AUTOINCREMENT id, the four
request fields, `note || ''`, the default status CONFIRMED, and the
timestamp taken just before the INSERT. -/
def mkBooking (db : DB) (lineUserId name date time note : Option String)
    (createdAt : String) : Booking :=
  ⟨db.nextId, lineUserId.getD "", name.getD "", date.getD "", time.getD "",
   (if isBlank note then "" else note.getD ""), "CONFIRMED", createdAt⟩

/-- The POST /api/book handler. Fields are `Option String` (absent JSON
keys are `none`); the handler rejects falsy fields, then issues the COUNT
query, then — when below capacity — the INSERT, then fires the LINE push
(whose failure is only caught and logged) and responds 201. `notifyOk`
models whether the pushMessage promise resolves or rejects. -/
def reserveSlot (db : DB) (lineUserId name date time note : Option String)
    (createdAt : String) (notifyOk : Bool) : BookOutcome :=
  if isBlank lineUserId || isBlank name || isBlank date || isBlank time then
    ⟨.validationError, db, [.respond 400]⟩
  else if CAPACITY_PER_SLOT ≤ countSlot db (date.getD "") (time.getD "") then
    ⟨.slotFull, db, [.read (date.getD "") (time.getD ""), .respond 409]⟩
  else
    ⟨.created (mkBooking db lineUserId name date time note createdAt),
     ⟨db.rows ++ [mkBooking db lineUserId name date time note createdAt],
      db.nextId + 1⟩,
     [.read (date.getD "") (time.getD ""),
      .insert (mkBooking db lineUserId name date time note createdAt),
      .push (lineUserId.getD "")
        (mkBooking db lineUserId name date time note createdAt) notifyOk,
      .respond 201]⟩

/-- ORDER BY date, time: lexicographic on the (date, time) text pair. -/
def byDateTime (a b : Booking) : Prop :=
  a.date < b.date ∨ (a.date = b.date ∧ a.time ≤ b.time)

instance : DecidableRel byDateTime := fun a b => by
  unfold byDateTime; infer_instance

/-- `SELECT * FROM bookings WHERE lineUserId = ? ORDER BY date, time`
as issued by the GET /api/my-bookings handler. -/
def listMyBookings (db : DB) (u : String) : List Booking :=
  (db.rows.filter (fun b => b.lineUserId == u)).insertionSort byDateTime

/-- The identical query issued by the LINE "my queue" message branch of
`handleLineEvent`. -/
def lineMyQueueRows (db : DB) (userId : String) : List Booking :=
  (db.rows.filter (fun b => b.lineUserId == userId)).insertionSort byDateTime

/-! ## Interleaved model of POST /api/book

sqlite3 serializes individual statements, but the handler issues the
COUNT and the INSERT as two separate statements: between a request's
count callback and its insert, statements of other requests may run.
Each request is therefore a process with two atomic steps. -/

/-- A validated in-flight POST /api/book request (the race scenario of the
spec presumes all four required fields present and non-empty). -/
structure RaceReq where
  lineUserId : String
  name : String
  date : String
  time : String
deriving Repr, DecidableEq

/-- Program counter of one in-flight request: not yet run its COUNT query;
holding the count its COUNT query returned; finished with a result. -/
inductive PState where
  | start
  | counted (c : Nat)
  | finished (r : BookResult)
deriving Repr, DecidableEq

/-- One atomic step of an in-flight request against the shared database:
either its COUNT statement, or its capacity decision plus (when below
capacity) its INSERT statement. -/
def stepReq (db : DB) (q : RaceReq) (createdAt : String) :
    PState → PState × DB
  | .start => (.counted (countSlot db q.date q.time), db)
  | .counted c =>
    if CAPACITY_PER_SLOT ≤ c then (.finished .slotFull, db)
    else
      let b : Booking :=
        ⟨db.nextId, q.lineUserId, q.name, q.date, q.time, "",
         "CONFIRMED", createdAt⟩
      (.finished (.created b), ⟨db.rows ++ [b], db.nextId + 1⟩)
  | .finished r => (.finished r, db)

/-- Shared state of two concurrent POST /api/book requests. -/
structure RaceState where
  db : DB
  p1 : PState
  p2 : PState
deriving Repr, DecidableEq

/-- Let the scheduled request (true = first, false = second) take its next
atomic step. -/
def raceStep (q1 q2 : RaceReq) (s : RaceState) : Bool → RaceState
  | true =>
    let r := stepReq s.db q1 "T1" s.p1
    ⟨r.2, r.1, s.p2⟩
  | false =>
    let r := stepReq s.db q2 "T2" s.p2
    ⟨r.2, s.p1, r.1⟩

/-- Run a schedule (a list of which request steps next) from a state. -/
def runRace (q1 q2 : RaceReq) (s : RaceState) : List Bool → RaceState
  | [] => s
  | i :: rest => runRace q1 q2 (raceStep q1 q2 s i) rest

/-- The two requests of the spec's race scenario. -/
def raceReq1 : RaceReq := ⟨"u1", "Ann", "2024-01-01", "09:00"⟩

def raceReq2 : RaceReq := ⟨"u2", "Bob", "2024-01-01", "09:00"⟩

/-- A shared example ledger: one committed booking at 09:00 on 2024-01-01. -/
def dbOne : DB :=
  ⟨[⟨1, "u1", "Ann", "2024-01-01", "09:00", "", "CONFIRMED", "T0"⟩], 2⟩

/-!  ## Theorems for the claims  -/

/-- C1: the capacity check and the insert are NOT atomic. Under the
schedule in which both requests run their COUNT statement before either
runs its INSERT, both concurrent POST /api/book calls for the same
(date, time) commit a booking: the final count is 2, exceeding
`CAPACITY_PER_SLOT = 1`, and neither caller receives SlotFull — refuting
the claimed no-overbooking invariant on the code as written. -/
theorem race_overbooks_capacity_one :
    (runRace raceReq1 raceReq2 ⟨DB.empty, .start, .start⟩
        [true, false, true, false]).p1
      = .finished (.created
          ⟨1, "u1", "Ann", "2024-01-01", "09:00", "", "CONFIRMED", "T1"⟩) ∧
    (runRace raceReq1 raceReq2 ⟨DB.empty, .start, .start⟩
        [true, false, true, false]).p2
      = .finished (.created
          ⟨2, "u2", "Bob", "2024-01-01", "09:00", "", "CONFIRMED", "T2"⟩) ∧
    countSlot (runRace raceReq1 raceReq2 ⟨DB.empty, .start, .start⟩
        [true, false, true, false]).db "2024-01-01" "09:00" = 2 ∧
    CAPACITY_PER_SLOT = 1 ∧
    ¬ countSlot (runRace raceReq1 raceReq2 ⟨DB.empty, .start, .start⟩
        [true, false, true, false]).db "2024-01-01" "09:00"
      ≤ CAPACITY_PER_SLOT := by
  decide

/-- C2: the handler performs no catalog-membership check on `time`.
A request with time "99:99" — not one of the 13 `TIME_SLOTS` labels —
succeeds against the empty ledger and commits a booking with that time,
refuting the claim that such requests always fail. -/
theorem out_of_catalog_time_commits :
    "99:99" ∉ TIME_SLOTS ∧
    reserveSlot DB.empty (some "u1") (some "Ann") (some "2024-01-01")
        (some "99:99") none "T0" true
      = ⟨.created ⟨1, "u1", "Ann", "2024-01-01", "99:99", "", "CONFIRMED", "T0"⟩,
         ⟨[⟨1, "u1", "Ann", "2024-01-01", "99:99", "", "CONFIRMED", "T0"⟩], 2⟩,
         [.read "2024-01-01" "99:99",
          .insert ⟨1, "u1", "Ann", "2024-01-01", "99:99", "", "CONFIRMED", "T0"⟩,
          .push "u1" ⟨1, "u1", "Ann", "2024-01-01", "99:99", "", "CONFIRMED", "T0"⟩ true,
          .respond 201]⟩ := by
  decide

/-- C3: sequentially, when the four fields are non-empty and the current
count for (date, time) is at least the capacity, POST /api/book responds
409 SlotFull, leaves the ledger untouched, inserts no row and pushes no
notification: the whole outcome is exactly the read followed by the 409. -/
theorem slotFull_leaves_ledger_unchanged
    (db : DB) (u n d t : String) (note : Option String) (ca : String)
    (ok : Bool) (hu : u ≠ "") (hn : n ≠ "") (hd : d ≠ "") (ht : t ≠ "")
    (hfull : CAPACITY_PER_SLOT ≤ countSlot db d t) :
    reserveSlot db (some u) (some n) (some d) (some t) note ca ok
      = ⟨.slotFull, db, [.read d t, .respond 409]⟩ := by
  simp [reserveSlot, isBlank, hu, hn, hd, ht, hfull]

theorem slotFull_leaves_ledger_unchanged_witness :
    reserveSlot dbOne (some "u2") (some "Bob") (some "2024-01-01")
        (some "09:00") none "T1" true
      = ⟨.slotFull, dbOne, [.read "2024-01-01" "09:00", .respond 409]⟩ :=
  slotFull_leaves_ledger_unchanged dbOne "u2" "Bob" "2024-01-01" "09:00"
    none "T1" true (by decide) (by decide) (by decide) (by decide) (by decide)

/-- C5: when any of lineUserId, name, date, time is missing or the empty
string, POST /api/book responds 400 ValidationError with the ledger
unchanged, and its trace contains no store interaction at all (zero reads
and zero inserts). -/
theorem blank_field_no_store_interaction
    (db : DB) (u n d t note : Option String) (ca : String) (ok : Bool)
    (h : (isBlank u || isBlank n || isBlank d || isBlank t) = true) :
    reserveSlot db u n d t note ca ok
      = ⟨.validationError, db, [.respond 400]⟩ ∧
    storeEvents (reserveSlot db u n d t note ca ok).trace = [] := by
  refine ⟨?_, ?_⟩ <;> simp [reserveSlot, h, storeEvents]

theorem blank_field_no_store_interaction_witness :
    reserveSlot DB.empty (some "u1") (some "") (some "2024-01-01")
        (some "09:00") none "T0" true
      = ⟨.validationError, DB.empty, [.respond 400]⟩ ∧
    storeEvents (reserveSlot DB.empty (some "u1") (some "")
        (some "2024-01-01") (some "09:00") none "T0" true).trace = [] :=
  blank_field_no_store_interaction DB.empty (some "u1") (some "")
    (some "2024-01-01") (some "09:00") none "T0" true (by decide)

instance : IsTotal Booking byDateTime := ⟨by
  intro a b
  simp only [byDateTime]
  rcases lt_trichotomy a.date b.date with h | h | h
  · exact Or.inl (Or.inl h)
  · rcases le_total a.time b.time with h2 | h2
    · exact Or.inl (Or.inr ⟨h, h2⟩)
    · exact Or.inr (Or.inr ⟨h.symm, h2⟩)
  · exact Or.inr (Or.inl h)⟩

instance : IsTrans Booking byDateTime := ⟨by
  intro a b c hab hbc
  simp only [byDateTime] at hab hbc ⊢
  rcases hab with h1 | ⟨h1, h1t⟩ <;> rcases hbc with h2 | ⟨h2, h2t⟩
  · exact Or.inl (h1.trans h2)
  · exact Or.inl (h2 ▸ h1)
  · exact Or.inl (h1 ▸ h2)
  · exact Or.inr ⟨h1.trans h2, h1t.trans h2t⟩⟩

/-- C6: GET /api/my-bookings returns exactly the requesting user's rows —
every returned booking carries that lineUserId, the output is a
permutation of the user's rows in the ledger (so nothing is added or
dropped regardless of insertion order) — and it is sorted ascending by
the (date, time) text pair, as ORDER BY date, time requires. -/
theorem listMyBookings_exact_and_sorted (db : DB) (u : String) :
    (∀ b ∈ listMyBookings db u, b.lineUserId = u) ∧
    (listMyBookings db u).Perm
      (db.rows.filter (fun b => b.lineUserId == u)) ∧
    (listMyBookings db u).Sorted byDateTime := by
  refine ⟨?_, ?_, ?_⟩
  · intro b hb
    rw [listMyBookings, List.mem_insertionSort] at hb
    simpa using (List.mem_filter.mp hb).2
  · exact List.perm_insertionSort _ _
  · exact List.sorted_insertionSort _ _

/-- C10: the LINE "my queue" chat branch and GET /api/my-bookings issue
the identical SELECT with the identical ORDER BY, so for every user and
every ledger state they produce the same bookings in the same order. -/
theorem line_queue_equals_rest_listing (db : DB) (u : String) :
    lineMyQueueRows db u = listMyBookings db u := rfl

/-- Looking up a key in an association list built by mapping keys to
values returns the value at the key if present, else the default 0. -/
theorem lookupCount_map_key (f : String → Nat) (t : String) :
    ∀ ts : List String, lookupCount (ts.map (fun s => (s, f s))) t
      = if t ∈ ts then f t else 0
  | [] => by simp [lookupCount]
  | a :: ts => by
    by_cases h : a = t
    · subst h
      simp [lookupCount, List.find?_cons_of_pos]
    · have ih := lookupCount_map_key f t ts
      simp only [List.map_cons, lookupCount] at ih ⊢
      rw [List.find?_cons_of_neg]
      · rw [ih]
        simp [List.mem_cons, h, Ne.symm h]
      · simpa using h

/-- The GROUP BY map lookup with default 0 equals a direct row count. -/
theorem lookupCount_groupByTime (rows : List Booking) (t : String) :
    lookupCount (groupByTime rows) t
      = (rows.filter (fun b => b.time == t)).length := by
  unfold groupByTime
  rw [lookupCount_map_key]
  by_cases h : t ∈ (rows.map (fun b => b.time)).dedup
  · rw [if_pos h]
  · rw [if_neg h]
    have hnone : ∀ b ∈ rows, ¬ (b.time == t) = true := by
      intro b hb hbt
      exact h (List.mem_dedup.mpr
        (List.mem_map.mpr ⟨b, hb, by simpa using hbt⟩))
    rw [List.filter_eq_nil_iff.mpr hnone]
    rfl

/-- C4: every entry of the GET /api/slots response satisfies the
availability formula — capacity is the configured constant, `booked` is
the number of CONFIRMED bookings for that (date, time) (every stored row
has status CONFIRMED), `available = capacity - booked` as an integer, and
`isFull` holds exactly when `available ≤ 0`. -/
theorem getSlots_entry_formula (db : DB) (date : String)
    (hconf : ∀ b ∈ db.rows, b.status = "CONFIRMED")
    (sv : SlotView) (hsv : sv ∈ getSlots db date) :
    sv.capacity = CAPACITY_PER_SLOT ∧
    sv.booked = countConfirmed db date sv.time ∧
    sv.available = (CAPACITY_PER_SLOT : Int) - (sv.booked : Int) ∧
    (sv.isFull = true ↔ sv.available ≤ 0) := by
  simp only [getSlots] at hsv
  obtain ⟨t, ht, rfl⟩ := List.mem_map.mp hsv
  refine ⟨rfl, ?_, rfl, by simp⟩
  show lookupCount (groupByTime (db.rows.filter (fun b => b.date == date))) t
      = countConfirmed db date t
  rw [lookupCount_groupByTime, countConfirmed, List.filter_filter]
  apply congrArg List.length
  apply List.filter_congr
  intro b hb
  simp [hconf b hb, Bool.and_comm]

theorem getSlots_entry_formula_witness :
    (⟨"09:00", 1, 1, 0, true⟩ : SlotView).capacity = CAPACITY_PER_SLOT ∧
    (⟨"09:00", 1, 1, 0, true⟩ : SlotView).booked
      = countConfirmed dbOne "2024-01-01"
          (⟨"09:00", 1, 1, 0, true⟩ : SlotView).time ∧
    (⟨"09:00", 1, 1, 0, true⟩ : SlotView).available
      = (CAPACITY_PER_SLOT : Int)
          - ((⟨"09:00", 1, 1, 0, true⟩ : SlotView).booked : Int) ∧
    ((⟨"09:00", 1, 1, 0, true⟩ : SlotView).isFull = true
      ↔ (⟨"09:00", 1, 1, 0, true⟩ : SlotView).available ≤ 0) :=
  getSlots_entry_formula dbOne "2024-01-01" (by decide)
    ⟨"09:00", 1, 1, 0, true⟩ (by decide)

/-- C9: the GET /api/slots response always has exactly the 13 catalog
time labels in catalog order, and a ledger row whose time is outside the
catalog leaves the availability view unchanged — its count is silently
dropped even though the row exists in the ledger. -/
theorem getSlots_shape_catalog_only (db : DB) (date : String)
    (b : Booking) (hb : b.time ∉ TIME_SLOTS) :
    (getSlots db date).map (fun sv => sv.time) = TIME_SLOTS ∧
    (getSlots db date).length = 13 ∧
    getSlots ⟨db.rows ++ [b], db.nextId⟩ date = getSlots db date := by
  refine ⟨rfl, rfl, ?_⟩
  simp only [getSlots]
  apply List.map_congr_left
  intro t ht
  have hbt : (b.time == t) = false := by
    rw [beq_eq_false_iff_ne]
    intro he
    exact hb (he ▸ ht)
  have hcount : lookupCount (groupByTime
        ((db.rows ++ [b]).filter (fun r => r.date == date))) t
      = lookupCount (groupByTime
        (db.rows.filter (fun r => r.date == date))) t := by
    rw [lookupCount_groupByTime, lookupCount_groupByTime]
    by_cases hbd : (b.date == date) = true <;>
      simp [List.filter_append, hbd, hbt]
  rw [hcount]

theorem getSlots_shape_catalog_only_witness :
    (getSlots DB.empty "2024-01-01").map (fun sv => sv.time) = TIME_SLOTS ∧
    (getSlots DB.empty "2024-01-01").length = 13 ∧
    getSlots ⟨DB.empty.rows
        ++ [⟨1, "u1", "Ann", "2024-01-01", "99:99", "", "CONFIRMED", "T0"⟩],
        DB.empty.nextId⟩ "2024-01-01"
      = getSlots DB.empty "2024-01-01" :=
  getSlots_shape_catalog_only DB.empty "2024-01-01"
    ⟨1, "u1", "Ann", "2024-01-01", "99:99", "", "CONFIRMED", "T0"⟩ (by decide)

/-- C7: notification outcome never influences the reservation. When a
call with a failing LINE push commits a booking, the result and the final
ledger coincide with those of the identical call whose push succeeds, the
caller still gets the committed booking (status CONFIRMED, store-assigned
id) and the 201 response, and the trace shows the push strictly after the
insert — the notification is emitted only once the commit succeeded. -/
theorem notification_isolated
    (db : DB) (u n d t note : Option String) (ca : String) (b : Booking)
    (h : (reserveSlot db u n d t note ca false).result = .created b) :
    (reserveSlot db u n d t note ca false).result
      = (reserveSlot db u n d t note ca true).result ∧
    (reserveSlot db u n d t note ca false).db
      = (reserveSlot db u n d t note ca true).db ∧
    b.status = "CONFIRMED" ∧ b.id = db.nextId ∧
    (reserveSlot db u n d t note ca false).trace
      = [.read (d.getD "") (t.getD ""), .insert b,
         .push (u.getD "") b false, .respond 201] := by
  unfold reserveSlot at h ⊢
  split at h
  · exact absurd h (by simp)
  · split at h
    · exact absurd h (by simp)
    · rename_i hv hc
      simp only [BookResult.created.injEq] at h
      subst h
      simp [hv, hc, mkBooking]

theorem notification_isolated_witness :
    (reserveSlot DB.empty (some "u1") (some "Ann") (some "2024-01-01")
        (some "09:00") none "T0" false).result
      = (reserveSlot DB.empty (some "u1") (some "Ann") (some "2024-01-01")
          (some "09:00") none "T0" true).result ∧
    (reserveSlot DB.empty (some "u1") (some "Ann") (some "2024-01-01")
        (some "09:00") none "T0" false).db
      = (reserveSlot DB.empty (some "u1") (some "Ann") (some "2024-01-01")
          (some "09:00") none "T0" true).db ∧
    (⟨1, "u1", "Ann", "2024-01-01", "09:00", "", "CONFIRMED", "T0"⟩
      : Booking).status = "CONFIRMED" ∧
    (⟨1, "u1", "Ann", "2024-01-01", "09:00", "", "CONFIRMED", "T0"⟩
      : Booking).id = DB.empty.nextId ∧
    (reserveSlot DB.empty (some "u1") (some "Ann") (some "2024-01-01")
        (some "09:00") none "T0" false).trace
      = [.read ((some "2024-01-01").getD "") ((some "09:00").getD ""),
         .insert ⟨1, "u1", "Ann", "2024-01-01", "09:00", "", "CONFIRMED", "T0"⟩,
         .push ((some "u1").getD "")
           ⟨1, "u1", "Ann", "2024-01-01", "09:00", "", "CONFIRMED", "T0"⟩ false,
         .respond 201] :=
  notification_isolated DB.empty (some "u1") (some "Ann") (some "2024-01-01")
    (some "09:00") none "T0"
    ⟨1, "u1", "Ann", "2024-01-01", "09:00", "", "CONFIRMED", "T0"⟩ (by decide)

/-- C8: a committed booking carries the store-assigned id — the current
AUTOINCREMENT counter, strictly greater than every existing row's id, so
ids are unique and monotonically increasing — status CONFIRMED (the only
status any operation ever writes), and an empty note when the request
omitted one; and the id bound is re-established on the new ledger. -/
theorem created_booking_shape
    (db : DB) (u n d t note : Option String) (ca : String) (ok : Bool)
    (b : Booking)
    (hmono : ∀ r ∈ db.rows, r.id < db.nextId)
    (h : (reserveSlot db u n d t note ca ok).result = .created b) :
    b.id = db.nextId ∧
    (∀ r ∈ db.rows, r.id < b.id) ∧
    b.status = "CONFIRMED" ∧
    (note = none → b.note = "") ∧
    (∀ r ∈ (reserveSlot db u n d t note ca ok).db.rows,
      r.id < (reserveSlot db u n d t note ca ok).db.nextId) := by
  unfold reserveSlot at h ⊢
  split at h
  · exact absurd h (by simp)
  · split at h
    · exact absurd h (by simp)
    · rename_i hv hc
      simp only [BookResult.created.injEq] at h
      subst h
      refine ⟨rfl, hmono, rfl, fun hn => by simp [hn, mkBooking, isBlank], ?_⟩
      simp only [hv, hc, if_false]
      intro r hr
      rcases List.mem_append.mp hr with hr | hr
      · exact Nat.lt_succ_of_lt (hmono r hr)
      · rcases List.mem_singleton.mp hr with rfl
        exact Nat.lt_succ_self _

theorem created_booking_shape_witness :
    (⟨1, "u1", "Ann", "2024-01-01", "09:00", "", "CONFIRMED", "T0"⟩
        : Booking).id = DB.empty.nextId ∧
    (∀ r ∈ DB.empty.rows, r.id
      < (⟨1, "u1", "Ann", "2024-01-01", "09:00", "", "CONFIRMED", "T0"⟩
          : Booking).id) ∧
    (⟨1, "u1", "Ann", "2024-01-01", "09:00", "", "CONFIRMED", "T0"⟩
        : Booking).status = "CONFIRMED" ∧
    ((none : Option String) = none →
      (⟨1, "u1", "Ann", "2024-01-01", "09:00", "", "CONFIRMED", "T0"⟩
          : Booking).note = "") ∧
    (∀ r ∈ (reserveSlot DB.empty (some "u1") (some "Ann") (some "2024-01-01")
        (some "09:00") none "T0" true).db.rows,
      r.id < (reserveSlot DB.empty (some "u1") (some "Ann")
        (some "2024-01-01") (some "09:00") none "T0" true).db.nextId) :=
  created_booking_shape DB.empty (some "u1") (some "Ann") (some "2024-01-01")
    (some "09:00") none "T0" true
    ⟨1, "u1", "Ann", "2024-01-01", "09:00", "", "CONFIRMED", "T0"⟩
    (by simp [DB.empty]) (by decide)
